import Mathlib

/-!
Verification of the TLM port/export binding protocol and FIFO channel of
pyuvm (file src/pyuvm/uvm_tlm_interfaces.py), as a shallow embedding.

The embedding models the Python semantics that the source code exercises:
  * private-name mangling: an identifier of the form __name occurring
    textually inside a class body is compiled to _ClassName__name;
  * bare-name resolution in a method body: locals, then module globals,
    then builtins; names of classes nested inside the enclosing class are
    NOT in scope;
  * attribute lookup on an object: the instance attribute dictionary,
    then class attributes; a miss raises AttributeError;
  * dynamically compiled code (the exec call in uvm_port_base.connect) is
    compiled outside any class body, so no mangling is applied to it;
  * abstract base classes: instantiating a class that leaves an
    abstractmethod unimplemented raises TypeError;
  * queue.Queue semantics for put, put_nowait, get, get_nowait, full,
    empty and direct head access.

Objects are identified by their qualified names (spec section 3 uses the
qualified name as the identity of ports and providers), so an object
reference is represented by the full_name string of the referenced object.
-/

/-- Python exception values relevant to this module.  NameError,
AttributeError and TypeError arise from the embedded code; queueFull and
queueEmpty are the queue.Full and queue.Empty exceptions imported at the
top of the source file.  The constructors bindingTypeError and
unboundPortError stand for the error names used by the specification
error taxonomy (spec section 7); the source defines no such exception
classes, so no embedded operation ever produces them. -/
inductive PyError where
  | nameError (n : String)
  | attributeError (n : String)
  | typeError (cls : String)
  | queueFull
  | queueEmpty
  | bindingTypeError
  | unboundPortError
deriving DecidableEq, Repr

deriving instance DecidableEq for Except

/-- Attribute values stored in an object attribute dictionary.  Queue
items are modelled as integers (the transactions in the claims are
integers).  An object reference is the qualified name of the referenced
object. -/
inductive Val where
  | pynone
  | pyqueue (maxsize : Int) (items : List Int)
  | boundMethod (cls : String) (m : String)
  | objRef (name : String)
deriving DecidableEq, Repr

/-- Result of a possibly blocking Python call in a single-threaded run: a
normal value, a raised exception, or a call that suspends forever because
no other thread can make its wake-up condition true. -/
inductive Outcome (α : Type) where
  | ok (a : α)
  | err (e : PyError)
  | blocked
deriving DecidableEq, Repr

/-- True when a character list begins with two underscores. -/
def twoUnderscores (l : List Char) : Bool :=
  match l with
  | c1 :: c2 :: _ => c1 == '_' && c2 == '_'
  | _ => false

/-- CPython private-name mangling: inside the body of class cls, an
identifier with at least two leading underscores and at most one trailing
underscore is rewritten to _cls followed by the identifier. -/
def mangle (cls attr : String) : String :=
  if twoUnderscores attr.data && !(twoUnderscores attr.data.reverse) then
    ("_") ++ cls ++ attr
  else attr

/-- Lookup in a Python attribute dictionary. -/
def assocLookup {α : Type} : List (String × α) → String → Option α
  | [], _ => none
  | (k, v) :: rest, n => if n = k then some v else assocLookup rest n

/-- Dictionary assignment d[k] = v (also models instance attribute
assignment self.k = v). -/
def assocSet {α : Type} : List (String × α) → String → α → List (String × α)
  | [], k, v => [(k, v)]
  | (k1, v1) :: rest, k, v =>
      if k = k1 then (k, v) :: rest else (k1, v1) :: assocSet rest k v

/-- Names bound at the top level of the module uvm_tlm_interfaces.py: the
four import statements (line 30 to line 33) and every class statement of
the file. -/
def moduleGlobals : List String :=
  ["uvm_component", "QueueFull", "QueueEmpty", "Queue",
   "ABC", "abstractmethod", "FunctionType",
   "uvm_blocking_put_imp", "uvm_nonblocking_put_imp", "uvm_put_imp",
   "uvm_blocking_get_imp", "uvm_nonblocking_get_imp", "uvm_analysis_imp",
   "uvm_get_imp", "uvm_blocking_peek_imp", "uvm_nonblocking_peek_imp",
   "uvm_peek_imp", "uvm_blocking_get_peek_imp",
   "uvm_nonblocking_get_peek_imp", "uvm_get_peek_imp",
   "uvm_blocking_transport_imp", "uvm_non_blocking_transport_imp",
   "uvm_transport_imp", "uvm_blocking_master_imp",
   "uvm_nonblocking_master_imp", "uvm_master_imp",
   "uvm_blocking_slave_imp", "uvm_nonblocking_slave_imp", "uvm_slave_imp",
   "uvm_port_base", "uvm_blocking_put_port", "uvm_nonblocking_put_port",
   "uvm_put_port", "uvm_blocking_get_port", "uvm_nonblocking_get_port",
   "uvm_get_port", "uvm_blocking_peek_port", "uvm_nonblocking_peek_port",
   "uvm_peek_port", "uvm_blocking_get_peek_port",
   "uvm_nonblocking_get_peek_port", "uvm_get_peek_port",
   "uvm_analyis_port", "uvm_tlm_fifo_base"]

/-- The builtin names this module uses. -/
def pyBuiltins : List String :=
  ["isinstance", "super", "exec", "dir", "getattr"]

/-- Resolution of a bare name that is read (never assigned) inside a
method body: CPython compiles such a name as a global load, looking it up
in the module globals and then the builtins; a miss raises NameError.
Names of classes nested in the enclosing class are not consulted. -/
def resolveGlobal (n : String) : Except PyError Unit :=
  if moduleGlobals.contains n || pyBuiltins.contains n then Except.ok ()
  else Except.error (PyError.nameError n)

/-- An _imp abstract base class: its name and the list of names m for
which getattr on the class yields a FunctionType value, in the sorted
order produced by dir().  For these ABCs the FunctionType attributes are
exactly the methods introduced with def (every inherited dunder is a slot
wrapper, builtin or classmethod, not a plain function), and every such
method is decorated with abstractmethod in the source. -/
structure ImpClass where
  cname : String
  methods : List String
deriving DecidableEq, Repr

/-- Lexicographic comparison of character lists by code point. -/
def charListLt : List Char → List Char → Bool
  | [], [] => false
  | [], _ :: _ => true
  | _ :: _, [] => false
  | a :: as, b :: bs =>
      if a.toNat < b.toNat then true
      else if b.toNat < a.toNat then false
      else charListLt as bs

/-- Lexicographic order on names, as dir() sorts attribute names. -/
def nameLt (a b : String) : Bool := charListLt a.data b.data

/-- Insertion into a sorted duplicate-free list of names. -/
def insertName (s : String) : List String → List String
  | [] => [s]
  | x :: xs => if s = x then x :: xs
               else if nameLt s x then s :: x :: xs
               else x :: insertName s xs

/-- Sorted duplicate-free view of a list of names, as dir() reports
attribute names. -/
def dirSort (l : List String) : List String := l.foldr insertName []

/-- Methods visible on a class deriving from two imp bases: the union of
the two method sets, in dir() order. -/
def unionMethods (a b : ImpClass) : List String :=
  dirSort (a.methods ++ b.methods)

/-- class uvm_blocking_put_imp(ABC): abstract put(self, item). -/
def uvm_blocking_put_imp : ImpClass :=
  { cname := "uvm_blocking_put_imp", methods := ["put"] }

/-- class uvm_nonblocking_put_imp(ABC): abstract try_put(self, item) and
can_put(self). -/
def uvm_nonblocking_put_imp : ImpClass :=
  { cname := "uvm_nonblocking_put_imp", methods := dirSort ["try_put", "can_put"] }

/-- class uvm_put_imp(uvm_blocking_put_imp, uvm_nonblocking_put_imp). -/
def uvm_put_imp : ImpClass :=
  { cname := "uvm_put_imp",
    methods := unionMethods uvm_blocking_put_imp uvm_nonblocking_put_imp }

/-- class uvm_blocking_get_imp(ABC): abstract get(self). -/
def uvm_blocking_get_imp : ImpClass :=
  { cname := "uvm_blocking_get_imp", methods := ["get"] }

/-- class uvm_nonblocking_get_imp(ABC): abstract try_get(self, item) and
can_get(self). -/
def uvm_nonblocking_get_imp : ImpClass :=
  { cname := "uvm_nonblocking_get_imp", methods := dirSort ["try_get", "can_get"] }

/-- class uvm_analysis_imp(ABC): abstract write(self, item). -/
def uvm_analysis_imp : ImpClass :=
  { cname := "uvm_analysis_imp", methods := ["write"] }

/-- class uvm_get_imp(uvm_blocking_get_imp, uvm_nonblocking_get_imp). -/
def uvm_get_imp : ImpClass :=
  { cname := "uvm_get_imp",
    methods := unionMethods uvm_blocking_get_imp uvm_nonblocking_get_imp }

/-- class uvm_blocking_peek_imp(ABC): abstract peek(self). -/
def uvm_blocking_peek_imp : ImpClass :=
  { cname := "uvm_blocking_peek_imp", methods := ["peek"] }

/-- class uvm_nonblocking_peek_imp(ABC): abstract try_peek(self) and
can_peek(self). -/
def uvm_nonblocking_peek_imp : ImpClass :=
  { cname := "uvm_nonblocking_peek_imp", methods := dirSort ["try_peek", "can_peek"] }

/-- class uvm_peek_imp(uvm_blocking_peek_imp, uvm_nonblocking_peek_imp). -/
def uvm_peek_imp : ImpClass :=
  { cname := "uvm_peek_imp",
    methods := unionMethods uvm_blocking_peek_imp uvm_nonblocking_peek_imp }

/-- class uvm_blocking_get_peek_imp(uvm_blocking_get_imp, uvm_blocking_peek_imp). -/
def uvm_blocking_get_peek_imp : ImpClass :=
  { cname := "uvm_blocking_get_peek_imp",
    methods := unionMethods uvm_blocking_get_imp uvm_blocking_peek_imp }

/-- class uvm_nonblocking_get_peek_imp(uvm_nonblocking_get_imp, uvm_nonblocking_peek_imp). -/
def uvm_nonblocking_get_peek_imp : ImpClass :=
  { cname := "uvm_nonblocking_get_peek_imp",
    methods := unionMethods uvm_nonblocking_get_imp uvm_nonblocking_peek_imp }

/-- class uvm_get_peek_imp(uvm_get_imp, uvm_peek_imp). -/
def uvm_get_peek_imp : ImpClass :=
  { cname := "uvm_get_peek_imp",
    methods := unionMethods uvm_get_imp uvm_peek_imp }

/-- class uvm_blocking_transport_imp(ABC): abstract transport(self, req). -/
def uvm_blocking_transport_imp : ImpClass :=
  { cname := "uvm_blocking_transport_imp", methods := ["transport"] }

/-- class uvm_non_blocking_transport_imp(ABC): abstract nb_transport(self, req). -/
def uvm_non_blocking_transport_imp : ImpClass :=
  { cname := "uvm_non_blocking_transport_imp", methods := ["nb_transport"] }

/-- class uvm_transport_imp(uvm_blocking_transport_imp, uvm_non_blocking_transport_imp). -/
def uvm_transport_imp : ImpClass :=
  { cname := "uvm_transport_imp",
    methods := unionMethods uvm_blocking_transport_imp uvm_non_blocking_transport_imp }

/-- class uvm_blocking_master_imp(uvm_blocking_put_imp, uvm_blocking_get_peek_imp). -/
def uvm_blocking_master_imp : ImpClass :=
  { cname := "uvm_blocking_master_imp",
    methods := unionMethods uvm_blocking_put_imp uvm_blocking_get_peek_imp }

/-- class uvm_nonblocking_master_imp(uvm_nonblocking_put_imp, uvm_nonblocking_get_peek_imp). -/
def uvm_nonblocking_master_imp : ImpClass :=
  { cname := "uvm_nonblocking_master_imp",
    methods := unionMethods uvm_nonblocking_put_imp uvm_nonblocking_get_peek_imp }

/-- class uvm_master_imp(uvm_nonblocking_master_imp, uvm_blocking_master_imp). -/
def uvm_master_imp : ImpClass :=
  { cname := "uvm_master_imp",
    methods := unionMethods uvm_nonblocking_master_imp uvm_blocking_master_imp }

/-- class uvm_blocking_slave_imp(uvm_blocking_put_imp, uvm_blocking_get_peek_imp). -/
def uvm_blocking_slave_imp : ImpClass :=
  { cname := "uvm_blocking_slave_imp",
    methods := unionMethods uvm_blocking_put_imp uvm_blocking_get_peek_imp }

/-- class uvm_nonblocking_slave_imp(uvm_nonblocking_put_imp, uvm_nonblocking_get_peek_imp). -/
def uvm_nonblocking_slave_imp : ImpClass :=
  { cname := "uvm_nonblocking_slave_imp",
    methods := unionMethods uvm_nonblocking_put_imp uvm_nonblocking_get_peek_imp }

/-- class uvm_slave_imp(uvm_nonblocking_slave_imp, uvm_blocking_slave_imp). -/
def uvm_slave_imp : ImpClass :=
  { cname := "uvm_slave_imp",
    methods := unionMethods uvm_nonblocking_slave_imp uvm_blocking_slave_imp }

example : uvm_put_imp.methods = ["can_put", "put", "try_put"] := by decide

example : uvm_get_peek_imp.methods
    = ["can_get", "can_peek", "get", "peek", "try_get", "try_peek"] := by decide

example : mangle ("uvm_tlm_fifo_base") ("__queue") = "_uvm_tlm_fifo_base__queue" := by decide

example : mangle ("PutExport") ("__queue") = "_PutExport__queue" := by decide

/-!
Ports, providers and the binding protocol (source lines 202 to 292).
-/

/-- A provider (the source calls the connect argument export; export is a
reserved word here, so the embedding says provider).  The owning-component
fields are Modelled from the spec: the owning component supplies the
qualified name full_name, and the provider carries the reverse map
provided_to created once per owning component (spec sections 3 and 6);
neither is created anywhere under src/.  methods lists the operation
names the concrete object implements; classes lists the classes of its
method resolution order, for the nominal isinstance check. -/
structure Provider where
  full_name : String
  provided_to : List (String × String)
  methods : List String
  classes : List String
deriving DecidableEq, Repr

/-- State of a uvm_port_base object.  full_name comes from the owning
component (Modelled from the spec, section 6: the parent reference is
used solely to form that qualified name).  connected_to and uvm_methods
are the instance attributes assigned at lines 221 to 225.  attrs is the
rest of the instance attribute dictionary: the attributes assigned
dynamically after construction (by connect). -/
structure Port where
  full_name : String
  connected_to : List (String × String)
  imp_type : ImpClass
  uvm_methods : List String
  attrs : List (String × Val)
deriving DecidableEq, Repr

/-- uvm_port_base.__init__ (lines 219 to 225): records connected_to as an
empty dict, stores the imp type, and computes uvm_methods as the dir()
attribute names of imp_type bound to FunctionType values — which is
exactly ImpClass.methods (see ImpClass). -/
def uvm_port_base_init (full_name : String) (imp_type : ImpClass) : Port :=
  { full_name := full_name
    connected_to := []
    imp_type := imp_type
    uvm_methods := imp_type.methods
    attrs := [] }

/-- Attribute names held by ordinary fields of every port object (the
instance attributes assigned in uvm_port_base.__init__). -/
def portFieldAttrs : List String :=
  ["full_name", "connected_to", "_imp_type", "uvm_methods"]

/-- Method names defined at class level on uvm_port_base (dunders and the
spec-modelled uvm_component base contribute no capability names). -/
def portClassAttrs : List String := ["connect"]

/-- Attribute lookup on a port object: dynamic instance attributes, then
the fixed instance attributes of __init__, then class-level methods; a
miss raises AttributeError.  Fixed fields and class methods are returned
as opaque markers: no claim consults their values. -/
def portGetattr (p : Port) (n : String) : Except PyError Val :=
  match assocLookup p.attrs n with
  | some v => Except.ok v
  | none =>
      if portFieldAttrs.contains n then Except.ok (Val.objRef n)
      else if portClassAttrs.contains n then
        Except.ok (Val.boundMethod ("uvm_port_base") n)
      else Except.error (PyError.attributeError n)

/-- Invoking port.m(...): Python first looks up the attribute m; an
absent attribute raises AttributeError before any call happens.  A found
attribute would then be called; for ports built by this module no
capability method is ever bound (connect raises first, see
uvm_port_base_connect), so the call itself is not modelled further. -/
def portInvoke (p : Port) (m : String) : Except PyError Unit :=
  match portGetattr p m with
  | Except.error e => Except.error e
  | Except.ok _ => Except.ok ()

/-- The nominal isinstance check of line 235: true when the imp class
appears among the classes of the object.  Its result is discarded by the
source. -/
def pyIsinstance (pr : Provider) (c : ImpClass) : Bool :=
  pr.classes.contains c.cname

/-- The attribute name under which line 236 stores the provider: the
assignment self.__export = export is compiled inside the body of class
uvm_port_base, so the private name is mangled. -/
def exportAttrKey : String := mangle ("uvm_port_base") ("__export")

/-- Result of a call to connect: the final state of the two objects and
the exception that escaped, if any.  In Python the attribute mutations
performed before an exception persist on the objects. -/
structure ConnectResult where
  port : Port
  provider : Provider
  raised : Option PyError
deriving DecidableEq, Repr

/-- The loop of lines 239 and 240:
for method in self.uvm_methods: exec of the statement
self.method = self.__export.method (with the method name spliced in).
The exec string is compiled at run time outside any class body, so the
private name __export is NOT mangled there; the right-hand side is
evaluated first, looking up the attribute named __export on self.  On an
exception the loop aborts and the exception propagates. -/
def execBind (self : Port) (pr : Provider) : List String → Port × Option PyError
  | [] => (self, none)
  | m :: rest =>
      match portGetattr self ("__export") with
      | Except.error e => (self, some e)
      | Except.ok _ =>
          if pr.methods.contains m then
            execBind { self with attrs := assocSet self.attrs m (Val.boundMethod pr.full_name m) } pr rest
          else (self, some (PyError.attributeError m))

/-- uvm_port_base.connect (lines 227 to 240), step by step:
line 235 evaluates isinstance(export, self._imp_type) as a bare
expression statement and discards the result — a mismatch raises nothing
and stops nothing; line 236 stores the provider under the mangled name
_uvm_port_base__export; line 237 adds the provider to connected_to under
the provider qualified name; line 238 adds the port to the provider map
provided_to under the port qualified name; lines 239 and 240 run the exec
loop, which fails on its first iteration because the unmangled name
__export is not an attribute of the port. -/
def uvm_port_base_connect (self : Port) (pr : Provider) : ConnectResult :=
  let _ := pyIsinstance pr self.imp_type
  let self1 : Port :=
    { self with attrs := assocSet self.attrs exportAttrKey (Val.objRef pr.full_name) }
  let self2 : Port :=
    { self1 with connected_to := assocSet self1.connected_to pr.full_name pr.full_name }
  let pr1 : Provider :=
    { pr with provided_to := assocSet pr.provided_to self.full_name self.full_name }
  match execBind self2 pr1 self2.uvm_methods with
  | (self3, r) => { port := self3, provider := pr1, raised := r }

/-- uvm_blocking_put_port.__init__ (lines 242 to 244). -/
def uvm_blocking_put_port_init (full_name : String) : Port :=
  uvm_port_base_init full_name uvm_blocking_put_imp

/-- uvm_nonblocking_put_port.__init__ (lines 246 to 248). -/
def uvm_nonblocking_put_port_init (full_name : String) : Port :=
  uvm_port_base_init full_name uvm_nonblocking_put_imp

/-- uvm_put_port.__init__ (lines 250 to 252). -/
def uvm_put_port_init (full_name : String) : Port :=
  uvm_port_base_init full_name uvm_put_imp

/-- uvm_blocking_get_port.__init__ (lines 254 to 256). -/
def uvm_blocking_get_port_init (full_name : String) : Port :=
  uvm_port_base_init full_name uvm_blocking_get_imp

/-- uvm_nonblocking_get_port.__init__ (lines 258 to 260). -/
def uvm_nonblocking_get_port_init (full_name : String) : Port :=
  uvm_port_base_init full_name uvm_nonblocking_get_imp

/-- uvm_get_port.__init__ (lines 262 to 264). -/
def uvm_get_port_init (full_name : String) : Port :=
  uvm_port_base_init full_name uvm_get_imp

/-- uvm_blocking_peek_port.__init__ (lines 266 to 268). -/
def uvm_blocking_peek_port_init (full_name : String) : Port :=
  uvm_port_base_init full_name uvm_blocking_peek_imp

/-- uvm_nonblocking_peek_port.__init__ (lines 270 to 272). -/
def uvm_nonblocking_peek_port_init (full_name : String) : Port :=
  uvm_port_base_init full_name uvm_nonblocking_peek_imp

/-- uvm_peek_port.__init__ (lines 274 to 276). -/
def uvm_peek_port_init (full_name : String) : Port :=
  uvm_port_base_init full_name uvm_peek_imp

/-- uvm_blocking_get_peek_port.__init__ (lines 278 to 280). -/
def uvm_blocking_get_peek_port_init (full_name : String) : Port :=
  uvm_port_base_init full_name uvm_blocking_get_peek_imp

/-- uvm_nonblocking_get_peek_port.__init__ (lines 282 to 284). -/
def uvm_nonblocking_get_peek_port_init (full_name : String) : Port :=
  uvm_port_base_init full_name uvm_nonblocking_get_peek_imp

/-- uvm_get_peek_port.__init__ (lines 286 to 288). -/
def uvm_get_peek_port_init (full_name : String) : Port :=
  uvm_port_base_init full_name uvm_get_peek_imp

/-- uvm_analyis_port.__init__ (lines 290 to 292; the class name typo is
from the source). -/
def uvm_analyis_port_init (full_name : String) : Port :=
  uvm_port_base_init full_name uvm_analysis_imp

/-!
FIFO classes (source lines 295 to 347): uvm_tlm_fifo_base with its nested
classes PutExport and GetPeekExport.
-/

/-- State of an instance of one of the nested export classes: the class
name and the instance attribute dictionary (neither class defines an
__init__, so a fresh instance has an empty dictionary). -/
structure ExportObj where
  cls : String
  attrs : List (String × Val)
deriving DecidableEq, Repr

/-- Concrete methods defined by class PutExport (lines 305 to 320). -/
def putExportClassMethods : List String := ["put", "can_put", "try_put"]

/-- Concrete methods defined by class GetPeekExport (lines 322 to 341).
Note: try_peek and can_peek, required by uvm_get_peek_imp, are absent. -/
def getPeekExportClassMethods : List String := ["get", "can_get", "try_get", "peek"]

/-- Class-level attribute names of the two nested export classes. -/
def exportClassMethods (cls : String) : List String :=
  if cls = "PutExport" then putExportClassMethods
  else if cls = "GetPeekExport" then getPeekExportClassMethods
  else []

/-- Attribute lookup on an export instance: instance dictionary, then the
methods of its class; a miss raises AttributeError. -/
def exportGetattr (o : ExportObj) (n : String) : Except PyError Val :=
  match assocLookup o.attrs n with
  | some v => Except.ok v
  | none =>
      if (exportClassMethods o.cls).contains n then
        Except.ok (Val.boundMethod o.cls n)
      else Except.error (PyError.attributeError n)

/-- queue.Queue.full(): true when maxsize is positive and the buffer has
reached it (a maxsize of zero or less means unbounded). -/
def queueFullB (maxsize : Int) (items : List Int) : Bool :=
  0 < maxsize && maxsize ≤ (items.length : Int)

/-- queue.Queue.empty(): true when the buffer holds no item. -/
def queueEmptyB (items : List Int) : Bool := items.isEmpty

/-- The attribute both PutExport methods read: self.__queue compiled in
the body of class PutExport, hence mangled with that class name. -/
def putExportQueueKey : String := mangle ("PutExport") ("__queue")

/-- The attribute all GetPeekExport methods read: self.__queue compiled
in the body of class GetPeekExport, hence mangled with that class name. -/
def getPeekExportQueueKey : String := mangle ("GetPeekExport") ("__queue")

/-- PutExport.put (lines 309 and 310): self.__queue.put(item).  Reads the
mangled private attribute; on a queue value, queue.Queue.put blocks while
full, otherwise appends at the tail.  A non-queue value (such as None)
has no put attribute. -/
def PutExport_put (self : ExportObj) (item : Int) : Outcome ExportObj :=
  match exportGetattr self putExportQueueKey with
  | Except.error e => Outcome.err e
  | Except.ok (Val.pyqueue ms items) =>
      if queueFullB ms items then Outcome.blocked
      else Outcome.ok
        { self with attrs := assocSet self.attrs putExportQueueKey (Val.pyqueue ms (items ++ [item])) }
  | Except.ok _ => Outcome.err (PyError.attributeError ("put"))

/-- PutExport.can_put (lines 312 and 313): not self.__queue.full(). -/
def PutExport_can_put (self : ExportObj) : Except PyError Bool :=
  match exportGetattr self putExportQueueKey with
  | Except.error e => Except.error e
  | Except.ok (Val.pyqueue ms items) => Except.ok (!(queueFullB ms items))
  | Except.ok _ => Except.error (PyError.attributeError ("full"))

/-- PutExport.try_put (lines 315 to 320):
try: self.__queue.put_nowait(item); return True
except QueueFull: return False.
Only queue.Full is caught; any other exception (in particular the
AttributeError from the private-attribute read) escapes the method. -/
def PutExport_try_put (self : ExportObj) (item : Int) : Except PyError (Bool × ExportObj) :=
  match exportGetattr self putExportQueueKey with
  | Except.error e => Except.error e
  | Except.ok (Val.pyqueue ms items) =>
      if queueFullB ms items then Except.ok (false, self)
      else Except.ok
        (true, { self with attrs := assocSet self.attrs putExportQueueKey (Val.pyqueue ms (items ++ [item])) })
  | Except.ok _ => Except.error (PyError.attributeError ("put_nowait"))

/-- GetPeekExport.get (lines 326 and 327): return self.__queue.get().
queue.Queue.get blocks while empty, otherwise removes and returns the
head. -/
def GetPeekExport_get (self : ExportObj) : Outcome (Int × ExportObj) :=
  match exportGetattr self getPeekExportQueueKey with
  | Except.error e => Outcome.err e
  | Except.ok (Val.pyqueue ms items) =>
      match items with
      | [] => Outcome.blocked
      | x :: rest => Outcome.ok
          (x, { self with attrs := assocSet self.attrs getPeekExportQueueKey (Val.pyqueue ms rest) })
  | Except.ok _ => Outcome.err (PyError.attributeError ("get"))

/-- GetPeekExport.can_get (lines 329 and 330): not self.__queue.empty(). -/
def GetPeekExport_can_get (self : ExportObj) : Except PyError Bool :=
  match exportGetattr self getPeekExportQueueKey with
  | Except.error e => Except.error e
  | Except.ok (Val.pyqueue _ items) => Except.ok (!(queueEmptyB items))
  | Except.ok _ => Except.error (PyError.attributeError ("empty"))

/-- GetPeekExport.try_get (lines 332 to 336):
try: return self.__queue.get_nowait()
except QueueEmpty: return None.
Only queue.Empty is caught; the AttributeError from the private-attribute
read escapes. -/
def GetPeekExport_try_get (self : ExportObj) : Except PyError (Option Int × ExportObj) :=
  match exportGetattr self getPeekExportQueueKey with
  | Except.error e => Except.error e
  | Except.ok (Val.pyqueue ms items) =>
      match items with
      | [] => Except.ok (none, self)
      | x :: rest => Except.ok
          (some x, { self with attrs := assocSet self.attrs getPeekExportQueueKey (Val.pyqueue ms rest) })
  | Except.ok _ => Except.error (PyError.attributeError ("get_nowait"))

/-- GetPeekExport.peek (lines 337 to 341):
while self.__queue.empty(): self.__queue.not_empty.wait()
then return self.__queue.queue[0].
Blocks while empty; otherwise returns the head without removing it. -/
def GetPeekExport_peek (self : ExportObj) : Outcome Int :=
  match exportGetattr self getPeekExportQueueKey with
  | Except.error e => Outcome.err e
  | Except.ok (Val.pyqueue _ items) =>
      match items with
      | [] => Outcome.blocked
      | x :: _ => Outcome.ok x
  | Except.ok _ => Outcome.err (PyError.attributeError ("empty"))

/-- Abstract methods of uvm_put_imp left unimplemented by PutExport:
none, so PutExport is instantiable. -/
def putExportAbstractRemaining : List String :=
  uvm_put_imp.methods.filter (fun m => !(putExportClassMethods.contains m))

/-- Abstract methods of uvm_get_peek_imp left unimplemented by
GetPeekExport: can_peek and try_peek remain abstract. -/
def getPeekExportAbstractRemaining : List String :=
  uvm_get_peek_imp.methods.filter (fun m => !(getPeekExportClassMethods.contains m))

/-- Instantiation PutExport(): an abstract base class refuses
instantiation with TypeError while any abstractmethod remains
unimplemented; PutExport overrides all three, so a fresh instance with an
empty attribute dictionary is produced. -/
def PutExport_new : Except PyError ExportObj :=
  if putExportAbstractRemaining.isEmpty then Except.ok { cls := "PutExport", attrs := [] }
  else Except.error (PyError.typeError ("PutExport"))

/-- Instantiation GetPeekExport(): refused with TypeError, because
can_peek and try_peek stay abstract. -/
def GetPeekExport_new : Except PyError ExportObj :=
  if getPeekExportAbstractRemaining.isEmpty then Except.ok { cls := "GetPeekExport", attrs := [] }
  else Except.error (PyError.typeError ("GetPeekExport"))

/-- State of a uvm_tlm_fifo_base object: the qualified name from the
owning component (Modelled from the spec, section 6) and the instance
attribute dictionary. -/
structure FifoObj where
  full_name : String
  attrs : List (String × Val)
deriving DecidableEq, Repr

/-- uvm_tlm_fifo_base.__init__ (lines 343 to 346):
super().__init__(name, parent) — the owning-component constructor,
Modelled from the spec (section 6: it only supplies the qualified name);
self.__queue = None — compiled inside class uvm_tlm_fifo_base, so the
attribute stored is the owner-mangled name, and its value is None, never
a Queue (the Queue class is imported but nowhere instantiated);
self.put_export = PutExport() — the right-hand side resolves the bare
name PutExport, which is a class attribute of uvm_tlm_fifo_base, not a
module global or builtin: the lookup raises NameError and the
constructor aborts. -/
def uvm_tlm_fifo_base_init (full_name : String) : Except PyError FifoObj :=
  let self0 : FifoObj := { full_name := full_name, attrs := [] }
  let self1 : FifoObj :=
    { self0 with attrs := assocSet self0.attrs (mangle ("uvm_tlm_fifo_base") ("__queue")) Val.pynone }
  match resolveGlobal ("PutExport") with
  | Except.error e => Except.error e
  | Except.ok _ =>
      match PutExport_new with
      | Except.error e => Except.error e
      | Except.ok po =>
          Except.ok { self1 with attrs := assocSet self1.attrs ("put_export") (Val.objRef po.cls) }

/-!
Remaining definitions used by the claim theorems.
-/

/-- The capability operation names of the exposed operation surface (spec
section 6). -/
def capabilityOpNames : List String :=
  ["put", "try_put", "can_put", "get", "try_get", "can_get",
   "peek", "try_peek", "can_peek", "transport", "nb_transport", "write"]

/-- A port whose dynamic attribute dictionary holds nothing besides,
possibly, the mangled provider reference stored by connect. -/
def portPristine (p : Port) : Prop :=
  assocLookup p.attrs ("__export") = none ∧
  ∀ m ∈ capabilityOpNames, assocLookup p.attrs m = none

/-- The port states the program can produce: a freshly constructed port,
or the port after any call to connect (with any provider). -/
inductive PortReachable : Port → Prop where
  | mk_init : ∀ name imp, PortReachable (uvm_port_base_init name imp)
  | mk_connect : ∀ p pr, PortReachable p →
      PortReachable (uvm_port_base_connect p pr).port

/-- A blocking-put port whose required capability set is
uvm_blocking_put_imp. -/
def c1_port : Port := uvm_blocking_put_port_init ("env.p1")

/-- A candidate provider that implements no operation at all (and is not
an instance of any imp class): it does not satisfy the required
capability set of c1_port. -/
def c1_provider : Provider :=
  { full_name := "env.x1", provided_to := [], methods := [], classes := ["object"] }

/-- The spec scenario of claim C3 run against the code: the only
channel-backed component is uvm_tlm_fifo_base, so the scenario must
first construct one (there is no capacity parameter to set to 1; the
constructor takes only name and parent). -/
def c3_scenario : Except PyError FifoObj := uvm_tlm_fifo_base_init ("env.fifo")

/-- A blocking-put port for claim C5. -/
def c5_port : Port := uvm_blocking_put_port_init ("env.p5")

/-- A conforming provider for claim C5: an instance of a class extending
uvm_blocking_put_imp that implements put. -/
def c5_provider : Provider :=
  { full_name := "env.x5", provided_to := [], methods := ["put"],
    classes := ["uvm_blocking_put_imp"] }

/-- A put port for claim C6. -/
def c6_port : Port := uvm_put_port_init ("env.p6")

/-- A conforming provider for claim C6, implementing the full put
capability set. -/
def c6_provider : Provider :=
  { full_name := "env.x6", provided_to := [],
    methods := ["put", "try_put", "can_put"], classes := ["uvm_put_imp"] }

/-- A fresh PutExport instance (the class is instantiable; see
PutExport_new). -/
def freshPutExport : ExportObj := { cls := "PutExport", attrs := [] }

/-- A GetPeekExport instance with an empty attribute dictionary: what an
instance would look like if the TypeError of GetPeekExport_new were
bypassed; used to evaluate the bodies of the get-side methods. -/
def freshGetPeekExport : ExportObj := { cls := "GetPeekExport", attrs := [] }

/-!
Helper lemmas.
-/

/-- Setting one key leaves lookups of a different key unchanged. -/
theorem assocLookup_assocSet_ne {α : Type} (l : List (String × α)) (k k2 : String) (v : α)
    (h : k ≠ k2) : assocLookup (assocSet l k2 v) k = assocLookup l k := by
  induction l with
  | nil => simp [assocSet, assocLookup, h]
  | cons hd tl ih =>
      obtain ⟨k1, v1⟩ := hd
      by_cases h2 : k2 = k1
      · subst h2
        simp [assocSet, assocLookup, h]
      · by_cases h3 : k = k1
        · simp [assocSet, assocLookup, h2, h3]
        · simp [assocSet, assocLookup, h2, h3, ih]

/-- On a port that does not carry an attribute literally named __export,
looking that name up raises AttributeError. -/
theorem portGetattr_export_miss (p : Port)
    (h : assocLookup p.attrs ("__export") = none) :
    portGetattr p ("__export") = Except.error (PyError.attributeError ("__export")) := by
  unfold portGetattr
  rw [h]
  exact rfl

/-- On a port that does not carry a capability name in its dynamic
attributes, looking that name up raises AttributeError: no capability
name is among the fixed fields or the class-level methods. -/
theorem portGetattr_capability_miss (p : Port) (m : String)
    (hm : m ∈ capabilityOpNames)
    (h : assocLookup p.attrs m = none) :
    portGetattr p m = Except.error (PyError.attributeError m) := by
  have hall : ∀ x ∈ capabilityOpNames,
      portFieldAttrs.contains x = false ∧ portClassAttrs.contains x = false := by decide
  have hf := (hall m hm).1
  have hc := (hall m hm).2
  unfold portGetattr
  rw [h, hf, hc]
  simp

/-- connect only adds the mangled provider reference to the dynamic
attributes: the exec loop evaluates the unmangled name __export first and
raises before any assignment. -/
theorem connect_port_attrs (p : Port) (pr : Provider)
    (h : assocLookup p.attrs ("__export") = none) :
    (uvm_port_base_connect p pr).port.attrs
      = assocSet p.attrs exportAttrKey (Val.objRef pr.full_name) := by
  have hlook : assocLookup (assocSet p.attrs exportAttrKey (Val.objRef pr.full_name)) ("__export") = none := by
    rw [assocLookup_assocSet_ne _ _ _ _ (by decide)]
    exact h
  unfold uvm_port_base_connect
  cases hm : p.uvm_methods with
  | nil => simp [execBind]
  | cons m rest =>
      simp only [execBind, hm]
      rw [portGetattr_export_miss _ hlook]

/-- connect preserves pristineness of the dynamic attributes. -/
theorem connect_preserves_pristine (p : Port) (pr : Provider)
    (hp : portPristine p) : portPristine (uvm_port_base_connect p pr).port := by
  obtain ⟨h1, h2⟩ := hp
  constructor
  · rw [connect_port_attrs p pr h1, assocLookup_assocSet_ne _ _ _ _ (by decide)]
    exact h1
  · intro m hm
    have hne : m ≠ exportAttrKey := by
      intro he
      subst he
      revert hm
      decide
    rw [connect_port_attrs p pr h1, assocLookup_assocSet_ne _ _ _ _ hne]
    exact h2 m hm

/-- Every port state the program can produce is pristine: neither a bare
__export attribute nor any capability operation is ever present in the
dynamic attribute dictionary. -/
theorem reachable_pristine (p : Port) (hp : PortReachable p) : portPristine p := by
  induction hp with
  | mk_init name imp => exact ⟨rfl, fun m _ => rfl⟩
  | mk_connect q pr _ ih => exact connect_preserves_pristine q pr ih

/-!
Claim theorems.
-/

/-- C1: evaluating connect on a blocking-put port and a provider that
implements no operation of the required capability set.  The isinstance
check of line 235 evaluates to false but its result is discarded: no
BindingTypeError (or any type error) is raised, both connected_to and
provided_to are mutated anyway, and the exception that does escape is the
AttributeError of the method-binding exec, unrelated to type checking.
This contradicts the claim (and the source comment at lines 194 and 195,
which says the port classes check that the export is of the correct
type). -/
theorem connect_skips_type_check_and_mutates_maps :
    pyIsinstance c1_provider c1_port.imp_type = false
    ∧ (uvm_port_base_connect c1_port c1_provider).raised
        = some (PyError.attributeError ("__export"))
    ∧ (uvm_port_base_connect c1_port c1_provider).raised ≠ some PyError.bindingTypeError
    ∧ assocLookup (uvm_port_base_connect c1_port c1_provider).port.connected_to ("env.x1")
        = some ("env.x1")
    ∧ assocLookup (uvm_port_base_connect c1_port c1_provider).provider.provided_to ("env.p1")
        = some ("env.p1") := by
  decide

/-- C2: constructing uvm_tlm_fifo_base raises NameError for every name,
because the nested class PutExport is referenced by an unqualified name
that is not in scope in the constructor body; the queue attribute is
assigned (as None) under the owner-mangled name _uvm_tlm_fifo_base__queue
while the export methods read the differently mangled, never assigned
names _PutExport__queue and _GetPeekExport__queue — witnessed here by
can_put and can_get raising AttributeError on fresh export instances. -/
theorem fifo_base_constructor_always_raises :
    (∀ name, uvm_tlm_fifo_base_init name = Except.error (PyError.nameError ("PutExport")))
    ∧ mangle ("uvm_tlm_fifo_base") ("__queue") = "_uvm_tlm_fifo_base__queue"
    ∧ putExportQueueKey = "_PutExport__queue"
    ∧ getPeekExportQueueKey = "_GetPeekExport__queue"
    ∧ putExportQueueKey ≠ mangle ("uvm_tlm_fifo_base") ("__queue")
    ∧ getPeekExportQueueKey ≠ mangle ("uvm_tlm_fifo_base") ("__queue")
    ∧ PutExport_can_put freshPutExport
        = Except.error (PyError.attributeError ("_PutExport__queue"))
    ∧ GetPeekExport_can_get freshGetPeekExport
        = Except.error (PyError.attributeError ("_GetPeekExport__queue")) := by
  refine ⟨fun name => rfl, by decide, by decide, by decide, by decide, by decide,
    by decide, by decide⟩

/-- C3: the capacity-1 scenario cannot run on the code.  Constructing the
only channel-backed component raises NameError before any queue exists
(and the constructor offers no capacity parameter at all); even a
directly instantiated PutExport fails its first step, try_put of 5
raising AttributeError instead of returning true. -/
theorem capacity_scenario_cannot_run :
    c3_scenario = Except.error (PyError.nameError ("PutExport"))
    ∧ PutExport_try_put freshPutExport 5
        = Except.error (PyError.attributeError ("_PutExport__queue")) := by
  decide

/-- C4 counterexample: invoking put on a never-connected blocking-put
port raises AttributeError, which is not the UnboundPortError the claim
names (the source defines no such exception class). -/
theorem unbound_port_put_is_attribute_error_not_unbound_port_error :
    portInvoke (uvm_blocking_put_port_init ("env.p4")) ("put")
      = Except.error (PyError.attributeError ("put"))
    ∧ portInvoke (uvm_blocking_put_port_init ("env.p4")) ("put")
      ≠ Except.error PyError.unboundPortError := by
  decide

/-- C4 (amended): on every port state the program can produce — freshly
constructed, or after any number of connect calls (none of which ever
completes the method-binding step) — invoking any capability operation
raises AttributeError: a loud failure, never a silent no-op. -/
theorem unbound_port_capability_op_raises_attribute_error
    (p : Port) (m : String) (hp : PortReachable p) (hm : m ∈ capabilityOpNames) :
    portInvoke p m = Except.error (PyError.attributeError m) := by
  have hpr := reachable_pristine p hp
  unfold portInvoke
  rw [portGetattr_capability_miss p m hm (hpr.2 m hm)]

/-- C4 witness: the amended theorem applied to a concrete fresh
blocking-put port and the operation put. -/
theorem unbound_port_capability_op_raises_attribute_error_witness :
    PortReachable (uvm_port_base_init ("env.p0") uvm_blocking_put_imp)
    ∧ ("put") ∈ capabilityOpNames
    ∧ portInvoke (uvm_port_base_init ("env.p0") uvm_blocking_put_imp) ("put")
        = Except.error (PyError.attributeError ("put")) :=
  ⟨PortReachable.mk_init ("env.p0") uvm_blocking_put_imp, by decide,
   unbound_port_capability_op_raises_attribute_error _ _
     (PortReachable.mk_init ("env.p0") uvm_blocking_put_imp) (by decide)⟩

/-- C5: even with a conforming provider (isinstance true, put
implemented), connect raises AttributeError at the exec step — the exec
string is compiled outside the class body, so __export is not mangled
there, while line 236 stored the provider under _uvm_port_base__export —
and the port still has no put attribute afterwards.  No successful
connect exists, so calls through the port can never reach the provider,
contradicting the claim and the class docstring at lines 211 to 213. -/
theorem connect_raises_before_binding_any_method :
    pyIsinstance c5_provider c5_port.imp_type = true
    ∧ (uvm_port_base_connect c5_port c5_provider).raised
        = some (PyError.attributeError ("__export"))
    ∧ portInvoke (uvm_port_base_connect c5_port c5_provider).port ("put")
        = Except.error (PyError.attributeError ("put")) := by
  decide

/-- C6: connect does record the binding on both sides — the provider
under its qualified name in connected_to and the port under its qualified
name in provided_to, exactly as lines 237 and 238 say — but it then
always raises at the method-binding step, so the state the claim
describes is never reached through a SUCCESSFUL connect. -/
theorem connect_records_both_sides_but_never_completes :
    assocLookup (uvm_port_base_connect c6_port c6_provider).port.connected_to ("env.x6")
      = some ("env.x6")
    ∧ assocLookup (uvm_port_base_connect c6_port c6_provider).provider.provided_to ("env.p6")
      = some ("env.p6")
    ∧ (uvm_port_base_connect c6_port c6_provider).raised ≠ none := by
  decide

/-- C7: try_put on a fresh PutExport instance (the class is instantiable)
lets AttributeError escape for every item: the method reads the never
assigned _PutExport__queue, and its except clause catches only
queue.Full, so fullness is never what is reported. -/
theorem try_put_lets_attribute_error_escape :
    PutExport_new = Except.ok freshPutExport
    ∧ ∀ item : Int, PutExport_try_put freshPutExport item
        = Except.error (PyError.attributeError ("_PutExport__queue")) := by
  refine ⟨by decide, fun item => rfl⟩

/-- C8: the get side is doubly broken — GetPeekExport cannot even be
instantiated (try_peek and can_peek stay abstract, so instantiation
raises TypeError), and the try_get body, evaluated on a hypothetical
instance, raises AttributeError from the never assigned
_GetPeekExport__queue instead of returning the absent value or a head. -/
theorem try_get_raises_instead_of_returning_absent :
    GetPeekExport_new = Except.error (PyError.typeError ("GetPeekExport"))
    ∧ getPeekExportAbstractRemaining = ["can_peek", "try_peek"]
    ∧ GetPeekExport_try_get freshGetPeekExport
        = Except.error (PyError.attributeError ("_GetPeekExport__queue")) := by
  decide

/-- C9: no item is ever accepted, so no delivery order exists: put raises
AttributeError for every item, get raises AttributeError, and the two
exports read differently mangled queue attributes, so they could not even
share one buffer. -/
theorem no_item_ever_accepted_for_fifo_order :
    (∀ item : Int, PutExport_put freshPutExport item
        = Outcome.err (PyError.attributeError ("_PutExport__queue")))
    ∧ GetPeekExport_get freshGetPeekExport
        = Outcome.err (PyError.attributeError ("_GetPeekExport__queue"))
    ∧ putExportQueueKey ≠ getPeekExportQueueKey := by
  refine ⟨fun item => rfl, by decide, by decide⟩

/-- C10: peek, evaluated on a GetPeekExport instance, raises
AttributeError from the never assigned _GetPeekExport__queue (and the
class is not even instantiable), so no call to peek ever returns a head,
let alone the same head twice. -/
theorem peek_raises_attribute_error :
    GetPeekExport_peek freshGetPeekExport
      = Outcome.err (PyError.attributeError ("_GetPeekExport__queue")) := by
  decide
